import Mathlib

/-!
Verification of the maintenance-service order workflow.

This file gives a shallow embedding of the order-creation / idempotency /
stock-adjustment / status-transition workflow of the repository:

* `app/models/order.py` — `OrderStatus`, `Order`, `OrderItem` rows and the
  `total_amount` property;
* `app/models/item.py` — `Item` rows;
* `app/models/technical_report.py` — `TechnicalReport` rows;
* `app/utils/constants.py` — `VALID_STATUS_TRANSITIONS`;
* `app/database/connection.py` — `DBManager.update` (which looks a row up by
  id, sets the given fields and then calls `db.commit()` itself);
* `app/routers/orders.py` — `create_order` and `update_order_status`.

The database is a record of lists of rows.  A SQLAlchemy session is embedded
as a `Txn`: the committed database plus the pending (in-session) database;
`db.add` / `setattr` write to the pending state, `db.commit()` publishes the
pending state.  Persistence faults are injected by a `failOn` oracle telling
which commit (1st, 2nd, ...) of the request raises `SQLAlchemyError`; the
fault-free semantics is `noFail`.  A concurrent winner of the idempotency
race is embedded as an optional order row that lands in the committed store
between the idempotency pre-check and the flush of the new order row, which
is exactly the window in which the unique constraint on `request_id` can
fire (`orders.py` line 172).
-/

namespace MaintenanceService

/-- `OrderStatus` enum from `app/models/order.py`. -/
inductive OrderStatus where
  | pending
  | in_progress
  | completed
  | cancelled
deriving Repr, DecidableEq

/-- The string value of each `OrderStatus` member (it is a `str` enum). -/
def OrderStatus.value : OrderStatus → String
  | .pending => "pending"
  | .in_progress => "in_progress"
  | .completed => "completed"
  | .cancelled => "cancelled"

/-- `VALID_STATUS_TRANSITIONS` from `app/utils/constants.py` (lines 73-78),
as the function `status ↦ VALID_STATUS_TRANSITIONS.get(status, [])` used at
`orders.py` line 399. -/
def VALID_STATUS_TRANSITIONS (current : String) : List String :=
  if current = "pending" then ["in_progress", "cancelled"]
  else if current = "in_progress" then ["completed", "cancelled"]
  else []

/-- An `items` table row (`app/models/item.py`).  Prices are embedded as
integers (fixed-point decimals scaled to cents); `stock` is an `Int` so that
the model can express the value a negative decrement would store — the
`Integer` column has no non-negativity CHECK constraint. -/
structure Item where
  id : Nat
  sku : String
  price : Int
  stock : Int
deriving Repr, DecidableEq

/-- A `technical_reports` table row (`app/models/technical_report.py`). -/
structure TechnicalReport where
  id : Nat
  title : String
  description : String
  diagnosis : Option String
  recommendations : Option String
  created_by_id : Nat
deriving Repr, DecidableEq

/-- An `orders` table row (`app/models/order.py`). -/
structure Order where
  id : Nat
  request_id : String
  technical_report_id : Nat
  status : OrderStatus
  image_url : Option String
deriving Repr, DecidableEq

/-- An `order_items` table row (`app/models/order.py`). -/
structure OrderItem where
  id : Nat
  order_id : Nat
  item_id : Nat
  quantity : Int
  unit_price : Int
deriving Repr, DecidableEq

/-- The relational store: one list per table, plus the autoincrement
counters for the primary keys handed out at flush time. -/
structure DB where
  items : List Item
  orders : List Order
  order_items : List OrderItem
  reports : List TechnicalReport
  next_order_id : Nat
  next_report_id : Nat
  next_order_item_id : Nat
deriving Repr, DecidableEq

/-- `item_manager.get(db, id)` — first row with the given id. -/
def DB.getItem (db : DB) (id : Nat) : Option Item :=
  db.items.find? (fun it => it.id == id)

/-- `order_manager.get` / the `Order.id == order_id` query. -/
def DB.getOrder (db : DB) (id : Nat) : Option Order :=
  db.orders.find? (fun o => o.id == id)

/-- `order_manager.get_by_field(db, "request_id", value)` — first order row
whose `request_id` matches exactly (case-sensitive). -/
def DB.getOrderByRequestId (db : DB) (rid : String) : Option Order :=
  db.orders.find? (fun o => o.request_id == rid)

/-- The stock currently stored for an item, if the item exists. -/
def DB.itemStock (db : DB) (id : Nat) : Option Int :=
  (db.getItem id).map Item.stock

/-- `setattr(db_item, "stock", v)` on the row with the given id. -/
def DB.setItemStock (db : DB) (id : Nat) (v : Int) : DB :=
  { db with items := db.items.map (fun it => if it.id == id then { it with stock := v } else it) }

/-- `setattr(db_order, "status", s)` on the row with the given id. -/
def DB.setOrderStatus (db : DB) (id : Nat) (s : OrderStatus) : DB :=
  { db with orders := db.orders.map (fun o => if o.id == id then { o with status := s } else o) }

/-- `db.add(report)` followed by the flush that hands out its id. -/
def DB.insertReport (db : DB) (r : TechnicalReport) : DB :=
  { db with reports := r :: db.reports, next_report_id := db.next_report_id + 1 }

/-- `db.add(order)` followed by the flush that hands out its id. -/
def DB.insertOrder (db : DB) (o : Order) : DB :=
  { db with orders := o :: db.orders, next_order_id := db.next_order_id + 1 }

/-- `db.add(order_item)`. -/
def DB.insertOrderItem (db : DB) (l : OrderItem) : DB :=
  { db with order_items := l :: db.order_items, next_order_item_id := db.next_order_item_id + 1 }

/-- The line items of one order (`db_order.items` relationship). -/
def DB.orderItemsOf (db : DB) (oid : Nat) : List OrderItem :=
  db.order_items.filter (fun l => l.order_id == oid)

/-- `Order.total_amount` (`app/models/order.py` lines 119-125): the sum over
the order's line items of `unit_price * quantity`, a property computed on
read — there is no stored column behind it. -/
def DB.total_amount (db : DB) (oid : Nat) : Int :=
  ((db.orderItemsOf oid).map (fun l => l.unit_price * l.quantity)).sum

/-- A SQLAlchemy session: the committed store, the in-session (pending)
store, and how many `db.commit()` calls this request has performed. -/
structure Txn where
  committed : DB
  pending : DB
  commitCount : Nat
deriving Repr, DecidableEq

/-- A fresh session over a committed store. -/
def Txn.start (db : DB) : Txn := ⟨db, db, 0⟩

/-- An uncommitted write (`db.add` / `setattr`). -/
def Txn.write (t : Txn) (f : DB → DB) : Txn := { t with pending := f t.pending }

/-- `db.commit()` under the fault oracle: the n-th commit of the request
raises `SQLAlchemyError` iff `failOn n`; on failure the caller's
`db.rollback()` leaves the committed store as it was (the error value). -/
def Txn.tryCommit (failOn : Nat → Bool) (t : Txn) : Except DB Txn :=
  if failOn (t.commitCount + 1) then .error t.committed
  else .ok ⟨t.pending, t.pending, t.commitCount + 1⟩

/-- `DBManager.update` (`app/database/connection.py` lines 175-206)
specialised to the `stock` field: look the row up by id; if absent, return
`None` without writing or committing; otherwise set the field and call
`db.commit()` — note that the commit happens inside this helper, not at the
caller's transaction boundary. -/
def item_manager_update_stock (failOn : Nat → Bool) (t : Txn) (id : Nat) (v : Int) :
    Except DB Txn :=
  match t.pending.getItem id with
  | none => .ok t
  | some _ => Txn.tryCommit failOn (t.write (fun db => db.setItemStock id v))

/-- `DBManager.update` specialised to the `status` field of an order. -/
def order_manager_update_status (failOn : Nat → Bool) (t : Txn) (id : Nat) (s : OrderStatus) :
    Except DB Txn :=
  match t.pending.getOrder id with
  | none => .ok t
  | some _ => Txn.tryCommit failOn (t.write (fun db => db.setOrderStatus id s))

/-- One entry of the `items` list of `OrderCreate` (`app/schemas/order.py`). -/
structure OrderItemCreate where
  item_id : Nat
  quantity : Int
deriving Repr, DecidableEq

/-- The technical-report part of the request payload. -/
structure TechnicalReportCreate where
  title : String
  description : String
  diagnosis : Option String
  recommendations : Option String
deriving Repr, DecidableEq

/-- The `OrderCreate` request payload. -/
structure OrderCreate where
  request_id : String
  technical_report : TechnicalReportCreate
  items : List OrderItemCreate
  image_base64 : Option String
deriving Repr, DecidableEq

/-- The error taxonomy raised by the two endpoints, keyed by the
`ERROR_MESSAGES` entries of `app/utils/constants.py`. -/
inductive ApiError where
  | order_items_empty
  | order_invalid_quantity
  | order_item_not_found (item_id : Nat)
  | order_insufficient_stock (item_id : Nat) (available requested : Int)
  | order_not_found (order_id : Nat)
  | order_invalid_status (current_status new_status : String)
  | database_error
deriving Repr, DecidableEq

/-- The HTTP status code each error is raised with. -/
def ApiError.httpStatus : ApiError → Nat
  | .order_not_found _ => 404
  | .database_error => 500
  | _ => 400

/-- One validated entry of `order_items_data` (`orders.py` lines 131-135):
the item reference, the requested quantity and the snapshotted unit price. -/
structure OrderItemData where
  item_id : Nat
  quantity : Int
  unit_price : Int
deriving Repr, DecidableEq

/-- The validation loop of `create_order` (`orders.py` lines 98-135): per
line, reject non-positive quantities, unknown items and insufficient stock
(each line checked against the stored, not-yet-decremented stock), and
snapshot the item's current price into the line data. -/
def validate_items (db : DB) : List OrderItemCreate → Except ApiError (List OrderItemData)
  | [] => .ok []
  | oi :: rest =>
    if oi.quantity ≤ 0 then .error .order_invalid_quantity
    else
      match db.getItem oi.item_id with
      | none => .error (.order_item_not_found oi.item_id)
      | some it =>
        if it.stock < oi.quantity then
          .error (.order_insufficient_stock oi.item_id it.stock oi.quantity)
        else
          match validate_items db rest with
          | .error e => .error e
          | .ok rest' => .ok ({ item_id := oi.item_id, quantity := oi.quantity,
                                unit_price := it.price } :: rest')

/-- STEP 3 of `create_order` (`orders.py` lines 174-189): per validated
line, `db.add` the `OrderItem` row, then `item_manager.update` the item's
stock to (its current in-session stock minus the line quantity) — which
commits.  A commit failure surfaces the committed store reached so far. -/
def create_items_loop (failOn : Nat → Bool) (orderId : Nat) :
    Txn → List OrderItemData → Except DB Txn
  | t, [] => .ok t
  | t, d :: rest =>
    let t1 := t.write (fun db => db.insertOrderItem
      { id := db.next_order_item_id, order_id := orderId, item_id := d.item_id,
        quantity := d.quantity, unit_price := d.unit_price })
    let newStock := ((t1.pending.getItem d.item_id).map Item.stock).getD 0 - d.quantity
    match item_manager_update_stock failOn t1 d.item_id newStock with
    | .error dbc => .error dbc
    | .ok t2 => create_items_loop failOn orderId t2 rest

/-- The outcome of `create_order`: the committed store after the request,
and either an error or the returned order together with the "already
existed" flag (`True` ⇒ the endpoint set HTTP 200 instead of 201). -/
structure CreateResult where
  db : DB
  result : Except ApiError (Order × Bool)

/-- The HTTP status code of a `create_order` outcome. -/
def CreateResult.httpStatus (r : CreateResult) : Nat :=
  match r.result with
  | .ok (_, true) => 200
  | .ok (_, false) => 201
  | .error e => e.httpStatus

/-- The `image_url` computed at `orders.py` lines 137-148: no payload ⇒
`None`; upload succeeded ⇒ the URL; `S3ServiceError` ⇒ logged, swallowed,
`None`. -/
def computed_image_url (upload : String → String → Except String String)
    (order : OrderCreate) : Option String :=
  match order.image_base64 with
  | none => none
  | some img =>
    match upload img order.request_id with
    | .ok url => some url
    | .error _ => none

/-- `create_order` (`app/routers/orders.py` lines 54-241).

`failOn` is the persistence-fault oracle; `upload` is the S3 collaborator
(`S3Service.upload_image`, which either returns a URL or raises
`S3ServiceError`); `interleaved` is the order row a concurrent caller
commits between the idempotency pre-check and the flush of the new order
row (`none` when the request runs alone); `userId` is the authenticated
actor recorded as `TechnicalReport.created_by_id`.

The body follows the source: idempotency pre-check, empty-list check,
validation loop, best-effort image upload, then inside the `try` block the
report flush, the order flush (where the unique constraint on `request_id`
raises `IntegrityError` if the concurrent winner exists, recovered by
rollback and re-query), the line-item loop with its per-line committing
stock updates, and the final `db.commit()`.  `SQLAlchemyError` at any
commit rolls back the session and surfaces the generic storage error. -/
def create_order (failOn : Nat → Bool) (upload : String → String → Except String String)
    (interleaved : Option Order) (db : DB) (order : OrderCreate) (userId : Nat) :
    CreateResult :=
  match db.getOrderByRequestId order.request_id with
  | some existing => ⟨db, .ok (existing, true)⟩
  | none =>
    if order.items.isEmpty then ⟨db, .error .order_items_empty⟩
    else
      match validate_items db order.items with
      | .error e => ⟨db, .error e⟩
      | .ok ds =>
        let image_url := computed_image_url upload order
        let base := match interleaved with
          | none => db
          | some w => db.insertOrder w
        let report : TechnicalReport :=
          { id := base.next_report_id, title := order.technical_report.title,
            description := order.technical_report.description,
            diagnosis := order.technical_report.diagnosis,
            recommendations := order.technical_report.recommendations,
            created_by_id := userId }
        match base.getOrderByRequestId order.request_id with
        | some winner => ⟨base, .ok (winner, true)⟩
        | none =>
          let newOrder : Order :=
            { id := base.next_order_id, request_id := order.request_id,
              technical_report_id := report.id, status := .pending,
              image_url := image_url }
          let t0 : Txn :=
            { committed := base,
              pending := (base.insertReport report).insertOrder newOrder,
              commitCount := 0 }
          match create_items_loop failOn newOrder.id t0 ds with
          | .error dbc => ⟨dbc, .error .database_error⟩
          | .ok t =>
            match Txn.tryCommit failOn t with
            | .error dbc => ⟨dbc, .error .database_error⟩
            | .ok t2 => ⟨t2.committed, .ok (newOrder, false)⟩

/-- The outcome of `update_order_status`. -/
structure UpdateResult where
  db : DB
  result : Except ApiError Order

/-- The stock-restoration loop of `update_order_status` (`orders.py` lines
410-418): per line item of the order being cancelled, `item_manager.update`
the item's stock to (its current stock plus the line quantity) — each call
commits on its own. -/
def restore_stock_loop (failOn : Nat → Bool) : Txn → List OrderItem → Except DB Txn
  | t, [] => .ok t
  | t, l :: rest =>
    let newStock := ((t.pending.getItem l.item_id).map Item.stock).getD 0 + l.quantity
    match item_manager_update_stock failOn t l.item_id newStock with
    | .error dbc => .error dbc
    | .ok t2 => restore_stock_loop failOn t2 rest

/-- `update_order_status` (`app/routers/orders.py` lines 370-444): look the
order up (404 if absent); reject any transition not listed in
`VALID_STATUS_TRANSITIONS` for the current status, reporting both statuses
(400); if the target is `cancelled` (and the current status is not), restore
stock line by line; then update the order's status; `SQLAlchemyError` at any
commit rolls back the session and surfaces the generic storage error. -/
def update_order_status (failOn : Nat → Bool) (db : DB) (order_id : Nat)
    (new_status : OrderStatus) : UpdateResult :=
  match db.getOrder order_id with
  | none => ⟨db, .error (.order_not_found order_id)⟩
  | some o =>
    let current_status := o.status.value
    let new_status_str := new_status.value
    if new_status_str ∈ VALID_STATUS_TRANSITIONS current_status then
      let t0 := Txn.start db
      let step1 : Except DB Txn :=
        if new_status_str = "cancelled" ∧ current_status ≠ "cancelled" then
          restore_stock_loop failOn t0 (db.orderItemsOf order_id)
        else .ok t0
      match step1 with
      | .error dbc => ⟨dbc, .error .database_error⟩
      | .ok t1 =>
        match order_manager_update_status failOn t1 order_id new_status with
        | .error dbc => ⟨dbc, .error .database_error⟩
        | .ok t2 =>
          match t2.committed.getOrder order_id with
          | some o2 => ⟨t2.committed, .ok o2⟩
          | none => ⟨t2.committed, .error (.order_not_found order_id)⟩
    else
      ⟨db, .error (.order_invalid_status current_status new_status_str)⟩

/-- The `update` endpoint of `app/routers/items.py` restricted to a price
change: `item_manager.update(db, id, price=p)` writes the `items` row and
touches nothing else. -/
def update_item_price (db : DB) (id : Nat) (p : Int) : DB :=
  { db with items := db.items.map (fun it => if it.id == id then { it with price := p } else it) }

/-- The fault-free persistence oracle: no commit ever fails. -/
def noFail : Nat → Bool := fun _ => false

/-- An upload collaborator that always raises `S3ServiceError`. -/
def uploadUnavailable : String → String → Except String String :=
  fun _ _ => .error "S3 unavailable"

/-- A fixed technical-report payload used in concrete scenarios. -/
def trPayload : TechnicalReportCreate :=
  { title := "t", description := "d", diagnosis := none, recommendations := none }

/-- A store holding a single item (id 1) and nothing else. -/
def singleItemDB (sku : String) (price stock : Int) : DB :=
  { items := [{ id := 1, sku := sku, price := price, stock := stock }],
    orders := [], order_items := [], reports := [],
    next_order_id := 1, next_report_id := 1, next_order_item_id := 1 }

/-- A one-line order request for item 1. -/
def singleLineReq (rid : String) (tr : TechnicalReportCreate) (qty : Int) : OrderCreate :=
  { request_id := rid, technical_report := tr,
    items := [{ item_id := 1, quantity := qty }], image_base64 := none }

/-! ### Fault-free unfolding of the creation loop -/

/-- The fault-free session after one iteration of `create_items_loop`. -/
def noFailStep (orderId : Nat) (t : Txn) (d : OrderItemData) : Txn :=
  let t1 := t.write (fun db => db.insertOrderItem
    { id := db.next_order_item_id, order_id := orderId, item_id := d.item_id,
      quantity := d.quantity, unit_price := d.unit_price })
  match t1.pending.getItem d.item_id with
  | none => t1
  | some it =>
    ⟨t1.pending.setItemStock d.item_id (it.stock - d.quantity),
     t1.pending.setItemStock d.item_id (it.stock - d.quantity),
     t1.commitCount + 1⟩

/-- The fault-free effect of one loop iteration on the session store. -/
def apply_line (orderId : Nat) (db : DB) (d : OrderItemData) : DB :=
  let db1 := db.insertOrderItem
    { id := db.next_order_item_id, order_id := orderId, item_id := d.item_id,
      quantity := d.quantity, unit_price := d.unit_price }
  match db1.getItem d.item_id with
  | none => db1
  | some it => db1.setItemStock d.item_id (it.stock - d.quantity)

theorem tryCommit_noFail (t : Txn) :
    Txn.tryCommit noFail t = .ok ⟨t.pending, t.pending, t.commitCount + 1⟩ := rfl

theorem noFailStep_pending (orderId : Nat) (t : Txn) (d : OrderItemData) :
    (noFailStep orderId t d).pending = apply_line orderId t.pending d := by
  unfold noFailStep apply_line
  rcases h : (t.write (fun db => db.insertOrderItem
      { id := db.next_order_item_id, order_id := orderId, item_id := d.item_id,
        quantity := d.quantity, unit_price := d.unit_price })).pending.getItem d.item_id with _ | it <;>
    simp_all [Txn.write]

theorem create_items_loop_noFail (orderId : Nat) (ds : List OrderItemData) :
    ∀ t : Txn, create_items_loop noFail orderId t ds = .ok (ds.foldl (noFailStep orderId) t) := by
  induction ds with
  | nil => intro t; rfl
  | cons d rest ih =>
    intro t
    rw [create_items_loop, List.foldl_cons]
    rcases h : (t.write (fun db => db.insertOrderItem
        { id := db.next_order_item_id, order_id := orderId, item_id := d.item_id,
          quantity := d.quantity, unit_price := d.unit_price })).pending.getItem d.item_id with _ | it
    · simp only [item_manager_update_stock, h, noFailStep, ih]
    · simp only [item_manager_update_stock, h, tryCommit_noFail, noFailStep, Txn.write, ih]
      simp_all [Txn.write]

theorem foldl_noFailStep_pending (orderId : Nat) (ds : List OrderItemData) :
    ∀ t : Txn, (ds.foldl (noFailStep orderId) t).pending = ds.foldl (apply_line orderId) t.pending := by
  induction ds with
  | nil => intro t; rfl
  | cons d rest ih => intro t; rw [List.foldl_cons, List.foldl_cons, ih, noFailStep_pending]

/-! ### The shape of a fault-free, race-free, non-idempotent-hit creation -/

/-- The report row STEP 1 of `create_order` builds. -/
def mkReport (db : DB) (order : OrderCreate) (userId : Nat) : TechnicalReport :=
  { id := db.next_report_id, title := order.technical_report.title,
    description := order.technical_report.description,
    diagnosis := order.technical_report.diagnosis,
    recommendations := order.technical_report.recommendations,
    created_by_id := userId }

/-- The order row STEP 2 of `create_order` builds. -/
def mkOrder (upload : String → String → Except String String)
    (db : DB) (order : OrderCreate) : Order :=
  { id := db.next_order_id, request_id := order.request_id,
    technical_report_id := db.next_report_id, status := .pending,
    image_url := computed_image_url upload order }

/-- The committed store a fault-free, race-free, non-idempotent-hit
`create_order` call ends with. -/
def created_db (upload : String → String → Except String String)
    (db : DB) (order : OrderCreate) (userId : Nat) (ds : List OrderItemData) : DB :=
  ds.foldl (apply_line (mkOrder upload db order).id)
    ((db.insertReport (mkReport db order userId)).insertOrder (mkOrder upload db order))

theorem create_order_noFail_success (upload : String → String → Except String String)
    (db : DB) (order : OrderCreate) (userId : Nat) (ds : List OrderItemData)
    (h1 : db.getOrderByRequestId order.request_id = none)
    (h2 : order.items.isEmpty = false)
    (h3 : validate_items db order.items = .ok ds) :
    create_order noFail upload none db order userId =
      ⟨created_db upload db order userId ds, .ok (mkOrder upload db order, false)⟩ := by
  unfold create_order
  rw [h1, h2, h3]
  simp only [create_items_loop_noFail, tryCommit_noFail]
  rw [h1, foldl_noFailStep_pending]
  rfl

theorem apply_line_orders (orderId : Nat) (db : DB) (d : OrderItemData) :
    (apply_line orderId db d).orders = db.orders := by
  unfold apply_line
  rcases h : (db.insertOrderItem
      { id := db.next_order_item_id, order_id := orderId, item_id := d.item_id,
        quantity := d.quantity, unit_price := d.unit_price }).getItem d.item_id with _ | it <;>
    simp_all [DB.insertOrderItem, DB.setItemStock]

theorem foldl_apply_line_orders (orderId : Nat) (ds : List OrderItemData) :
    ∀ db : DB, (ds.foldl (apply_line orderId) db).orders = db.orders := by
  induction ds with
  | nil => intro db; rfl
  | cons d rest ih => intro db; rw [List.foldl_cons, ih, apply_line_orders]

theorem created_db_orders (upload : String → String → Except String String)
    (db : DB) (order : OrderCreate) (userId : Nat) (ds : List OrderItemData) :
    (created_db upload db order userId ds).orders = mkOrder upload db order :: db.orders := by
  rw [created_db, foldl_apply_line_orders]; rfl

theorem getOrderByRequestId_created (upload : String → String → Except String String)
    (db : DB) (order : OrderCreate) (userId : Nat) (ds : List OrderItemData) :
    (created_db upload db order userId ds).getOrderByRequestId order.request_id =
      some (mkOrder upload db order) := by
  unfold DB.getOrderByRequestId
  rw [created_db_orders]
  exact List.find?_cons_of_pos _ (by simp [mkOrder])

/-! ### Claim theorems -/

/-- **C2**: for every valid order payload (no order yet under its
`request_id`, non-empty item list, validation succeeding), calling
`create_order` twice sequentially with the same `request_id` leaves exactly
one persisted order for that `request_id`; the first call answers 201 with
the new order, the second call answers 200 returning the very same order
row (same id), performs no write at all (the committed store is returned
unchanged), so every item's stock is unchanged. -/
theorem create_order_idempotent_pair (upload : String → String → Except String String)
    (db : DB) (order : OrderCreate) (userId : Nat) (ds : List OrderItemData)
    (h1 : db.getOrderByRequestId order.request_id = none)
    (h2 : order.items.isEmpty = false)
    (h3 : validate_items db order.items = .ok ds) :
    ∃ o : Order,
      (create_order noFail upload none db order userId).result = .ok (o, false) ∧
      (create_order noFail upload none db order userId).httpStatus = 201 ∧
      (create_order noFail upload none db order userId).db.orders.filter
          (fun x => x.request_id == order.request_id) = [o] ∧
      create_order noFail upload none (create_order noFail upload none db order userId).db
          order userId =
        ⟨(create_order noFail upload none db order userId).db, .ok (o, true)⟩ ∧
      (create_order noFail upload none (create_order noFail upload none db order userId).db
          order userId).httpStatus = 200 := by
  have hmain := create_order_noFail_success upload db order userId ds h1 h2 h3
  have hsecond : create_order noFail upload none (created_db upload db order userId ds)
      order userId =
      ⟨created_db upload db order userId ds, .ok (mkOrder upload db order, true)⟩ := by
    unfold create_order
    rw [getOrderByRequestId_created]
  refine ⟨mkOrder upload db order, ?_, ?_, ?_, ?_, ?_⟩
  · rw [hmain]
  · rw [hmain]; rfl
  · rw [hmain]
    show (created_db upload db order userId ds).orders.filter _ = _
    rw [created_db_orders, List.filter_cons_of_pos (by simp [mkOrder])]
    have hnone : ∀ x ∈ db.orders, ¬(x.request_id == order.request_id) = true :=
      List.find?_eq_none.mp h1
    have : db.orders.filter (fun x => x.request_id == order.request_id) = [] :=
      List.filter_eq_nil_iff.mpr hnone
    rw [this]
  · rw [hmain]; exact hsecond
  · rw [hmain, hsecond]; rfl

/-- Witness for C2 at a concrete valid payload: item 1 has stock 100 and
price 5, the request orders quantity 10 under `request_id` "req-1". -/
theorem create_order_idempotent_pair_witness :
    ((singleItemDB "SKU-1" 5 100).getOrderByRequestId "req-1" = none ∧
     (singleLineReq "req-1" trPayload 10).items.isEmpty = false ∧
     validate_items (singleItemDB "SKU-1" 5 100) (singleLineReq "req-1" trPayload 10).items =
       .ok [{ item_id := 1, quantity := 10, unit_price := 5 }]) ∧
    ∃ o : Order,
      (create_order noFail uploadUnavailable none (singleItemDB "SKU-1" 5 100)
          (singleLineReq "req-1" trPayload 10) 1).result = .ok (o, false) ∧
      (create_order noFail uploadUnavailable none (singleItemDB "SKU-1" 5 100)
          (singleLineReq "req-1" trPayload 10) 1).httpStatus = 201 ∧
      (create_order noFail uploadUnavailable none (singleItemDB "SKU-1" 5 100)
          (singleLineReq "req-1" trPayload 10) 1).db.orders.filter
          (fun x => x.request_id == (singleLineReq "req-1" trPayload 10).request_id) = [o] ∧
      create_order noFail uploadUnavailable none
          (create_order noFail uploadUnavailable none (singleItemDB "SKU-1" 5 100)
            (singleLineReq "req-1" trPayload 10) 1).db
          (singleLineReq "req-1" trPayload 10) 1 =
        ⟨(create_order noFail uploadUnavailable none (singleItemDB "SKU-1" 5 100)
            (singleLineReq "req-1" trPayload 10) 1).db, .ok (o, true)⟩ ∧
      (create_order noFail uploadUnavailable none
          (create_order noFail uploadUnavailable none (singleItemDB "SKU-1" 5 100)
            (singleLineReq "req-1" trPayload 10) 1).db
          (singleLineReq "req-1" trPayload 10) 1).httpStatus = 200 :=
  ⟨⟨rfl, rfl, rfl⟩,
   create_order_idempotent_pair uploadUnavailable (singleItemDB "SKU-1" 5 100)
     (singleLineReq "req-1" trPayload 10) 1 [{ item_id := 1, quantity := 10, unit_price := 5 }]
     rfl rfl rfl⟩

/-- **C10**: the idempotency pre-check takes precedence over everything:
whenever the committed store already holds an order under the request's
`request_id`, `create_order` returns it with the "already existed" signal
(HTTP 200) and the store unchanged — for every fault oracle, every upload
collaborator (none is invoked), every concurrent interleaving and every
payload, however invalid its item list or quantities would be. -/
theorem create_order_precheck_precedence
    (failOn : Nat → Bool) (upload : String → String → Except String String)
    (interleaved : Option Order) (db : DB) (order : OrderCreate) (userId : Nat) (o : Order)
    (h : db.getOrderByRequestId order.request_id = some o) :
    create_order failOn upload interleaved db order userId = ⟨db, .ok (o, true)⟩ ∧
    (create_order failOn upload interleaved db order userId).httpStatus = 200 := by
  have hmain : create_order failOn upload interleaved db order userId = ⟨db, .ok (o, true)⟩ := by
    unfold create_order
    rw [h]
  exact ⟨hmain, by rw [hmain]; rfl⟩

/-- Witness for C10: the store already holds an order under `request_id`
"dup"; the replayed payload is itself invalid (empty item list, an image
payload, every commit failing) and is still answered with the stored order
and HTTP 200. -/
theorem create_order_precheck_precedence_witness :
    ((singleItemDB "SKU-1" 5 100).insertOrder
        { id := 7, request_id := "dup", technical_report_id := 3, status := .pending,
          image_url := none }).getOrderByRequestId "dup" =
      some { id := 7, request_id := "dup", technical_report_id := 3, status := .pending,
             image_url := none } ∧
    create_order (fun _ => true) uploadUnavailable none
        ((singleItemDB "SKU-1" 5 100).insertOrder
          { id := 7, request_id := "dup", technical_report_id := 3, status := .pending,
            image_url := none })
        { request_id := "dup", technical_report := trPayload, items := [],
          image_base64 := some "x" } 1 =
      ⟨(singleItemDB "SKU-1" 5 100).insertOrder
          { id := 7, request_id := "dup", technical_report_id := 3, status := .pending,
            image_url := none },
       .ok ({ id := 7, request_id := "dup", technical_report_id := 3, status := .pending,
              image_url := none }, true)⟩ :=
  ⟨rfl,
   (create_order_precheck_precedence (fun _ => true) uploadUnavailable none
     ((singleItemDB "SKU-1" 5 100).insertOrder
       { id := 7, request_id := "dup", technical_report_id := 3, status := .pending,
         image_url := none })
     { request_id := "dup", technical_report := trPayload, items := [],
       image_base64 := some "x" } 1
     { id := 7, request_id := "dup", technical_report_id := 3, status := .pending,
       image_url := none } rfl).1⟩

/-- **C4**: the transition table admits exactly
`pending → {in_progress, cancelled}` and `in_progress → {completed,
cancelled}`; for every other (current, target) pair — every self-transition
and every transition out of the terminal statuses included —
`update_order_status` fails with the invalid-transition error carrying the
current and the requested status, and returns the store unchanged, under
every fault oracle. -/
theorem transition_table_closure :
    (∀ s t : OrderStatus, t.value ∈ VALID_STATUS_TRANSITIONS s.value ↔
      ((s = .pending ∧ (t = .in_progress ∨ t = .cancelled)) ∨
       (s = .in_progress ∧ (t = .completed ∨ t = .cancelled)))) ∧
    (∀ (failOn : Nat → Bool) (db : DB) (order_id : Nat) (o : Order) (t : OrderStatus),
      db.getOrder order_id = some o →
      t.value ∉ VALID_STATUS_TRANSITIONS o.status.value →
      update_order_status failOn db order_id t =
        ⟨db, .error (.order_invalid_status o.status.value t.value)⟩) := by
  constructor
  · intro s t
    cases s <;> cases t <;> decide
  · intro failOn db order_id o t h1 h2
    unfold update_order_status
    rw [h1]
    simp only [if_neg h2]

/-- A store holding item 1 and one order in the terminal status
`completed`. -/
def dbCompletedOrder : DB :=
  (singleItemDB "SKU-1" 5 100).insertOrder
    { id := 1, request_id := "req-c", technical_report_id := 1, status := .completed,
      image_url := none }

/-- Witness for C4: re-opening a `completed` order (target `pending`) is
rejected with the invalid-transition error and the store is unchanged. -/
theorem transition_table_closure_witness :
    (dbCompletedOrder.getOrder 1 =
      some { id := 1, request_id := "req-c", technical_report_id := 1, status := .completed,
             image_url := none } ∧
     OrderStatus.value .pending ∉ VALID_STATUS_TRANSITIONS (OrderStatus.value .completed)) ∧
    update_order_status noFail dbCompletedOrder 1 .pending =
      ⟨dbCompletedOrder, .error (.order_invalid_status "completed" "pending")⟩ :=
  ⟨⟨rfl, by decide⟩,
   transition_table_closure.2 noFail dbCompletedOrder 1
     { id := 1, request_id := "req-c", technical_report_id := 1, status := .completed,
       image_url := none } .pending rfl (by decide)⟩

/-- **C5**: on a store with one item of stock `S`, an order of quantity
`Q` (`0 < Q ≤ S`) takes the stock to `S − Q`; cancelling the order succeeds
and restores the stock to `S` (each line item incremented exactly once); a
second cancellation attempt is rejected by the transition table with the
invalid-transition error before any stock logic runs, leaving the store —
and so the stock, at `S`, not `S + Q` — unchanged; and transitioning into
any status other than `cancelled` never changes any item's stock, for every
fault oracle and store. -/
theorem cancel_restores_stock_exactly_once
    (S Q price : Int) (userId : Nat) (upload : String → String → Except String String)
    (rid sku : String) (tr : TechnicalReportCreate)
    (hQ : 0 < Q) (hQS : Q ≤ S) :
    ((create_order noFail upload none (singleItemDB sku price S)
        (singleLineReq rid tr Q) userId).db.itemStock 1 = some (S - Q)) ∧
    ((update_order_status noFail (create_order noFail upload none (singleItemDB sku price S)
        (singleLineReq rid tr Q) userId).db 1 .cancelled).result =
      .ok { id := 1, request_id := rid, technical_report_id := 1, status := .cancelled,
            image_url := none }) ∧
    ((update_order_status noFail (create_order noFail upload none (singleItemDB sku price S)
        (singleLineReq rid tr Q) userId).db 1 .cancelled).db.itemStock 1 = some S) ∧
    (update_order_status noFail
        (update_order_status noFail (create_order noFail upload none (singleItemDB sku price S)
          (singleLineReq rid tr Q) userId).db 1 .cancelled).db 1 .cancelled =
      ⟨(update_order_status noFail (create_order noFail upload none (singleItemDB sku price S)
          (singleLineReq rid tr Q) userId).db 1 .cancelled).db,
       .error (.order_invalid_status "cancelled" "cancelled")⟩) ∧
    (∀ (failOn : Nat → Bool) (db : DB) (order_id : Nat) (t : OrderStatus),
      t ≠ .cancelled → ((update_order_status failOn db order_id t).db).items = db.items) := by
  have hq1 : ¬(Q ≤ 0) := by omega
  have hq2 : ¬(S < Q) := by omega
  have h3 : validate_items (singleItemDB sku price S) (singleLineReq rid tr Q).items =
      .ok [{ item_id := 1, quantity := Q, unit_price := price }] := by
    simp [validate_items, singleLineReq, singleItemDB, DB.getItem, hq1, hq2]
  have hmain := create_order_noFail_success upload (singleItemDB sku price S)
    (singleLineReq rid tr Q) userId [{ item_id := 1, quantity := Q, unit_price := price }]
    rfl rfl h3
  refine ⟨?_, ?_, ?_, ?_, ?_⟩
  · rw [hmain]
    rfl
  · rw [hmain]
    rfl
  · rw [hmain]
    show some (S - Q + Q) = some S
    exact congrArg some (by omega)
  · rw [hmain]
    rfl
  · intro failOn db order_id t ht
    have hval : t.value ≠ "cancelled" := by cases t <;> simp_all [OrderStatus.value]
    unfold update_order_status
    rcases hgo : db.getOrder order_id with _ | o
    · rfl
    · simp only []
      split
      · rw [if_neg (fun hand => hval hand.1)]
        simp only [order_manager_update_status, Txn.start, Txn.write, Txn.tryCommit, hgo]
        split
        · next x dbc heq =>
            split at heq
            · cases heq; rfl
            · cases heq
        · next x t2 heq =>
            split at heq
            · cases heq
            · cases heq
              split <;> rfl
      · rfl

/-- Witness for C5: stock 100, quantity 10 — creation leaves 90, the
cancellation restores 100 and returns the cancelled order, re-cancelling is
rejected with the store unchanged. -/
theorem cancel_restores_stock_exactly_once_witness :
    ((0:Int) < 10 ∧ (10:Int) ≤ 100) ∧
    ((create_order noFail uploadUnavailable none (singleItemDB "SKU-5" 5 100)
        (singleLineReq "req-5" trPayload 10) 1).db.itemStock 1 = some (100 - 10)) ∧
    ((update_order_status noFail (create_order noFail uploadUnavailable none
        (singleItemDB "SKU-5" 5 100) (singleLineReq "req-5" trPayload 10) 1).db 1
        .cancelled).result =
      .ok { id := 1, request_id := "req-5", technical_report_id := 1, status := .cancelled,
            image_url := none }) ∧
    ((update_order_status noFail (create_order noFail uploadUnavailable none
        (singleItemDB "SKU-5" 5 100) (singleLineReq "req-5" trPayload 10) 1).db 1
        .cancelled).db.itemStock 1 = some 100) ∧
    (update_order_status noFail
        (update_order_status noFail (create_order noFail uploadUnavailable none
          (singleItemDB "SKU-5" 5 100) (singleLineReq "req-5" trPayload 10) 1).db 1
          .cancelled).db 1 .cancelled =
      ⟨(update_order_status noFail (create_order noFail uploadUnavailable none
          (singleItemDB "SKU-5" 5 100) (singleLineReq "req-5" trPayload 10) 1).db 1
          .cancelled).db,
       .error (.order_invalid_status "cancelled" "cancelled")⟩) := by
  have h := cancel_restores_stock_exactly_once 100 10 5 1 uploadUnavailable "req-5" "SKU-5"
    trPayload (by decide) (by decide)
  exact ⟨⟨by decide, by decide⟩, h.1, h.2.1, h.2.2.1, h.2.2.2.1⟩

/-- **C8**: the `unit_price` stored in each line item is the item's price
at creation time, `total_amount` is the sum of `unit_price × quantity` over
the order's line items computed on read, and changing the item's price
afterwards changes neither any existing line item's `unit_price` nor any
order's `total_amount` (`update_item_price` writes no `order_items` row at
all). -/
theorem total_amount_price_snapshot
    (S Q price p2 : Int) (userId : Nat) (upload : String → String → Except String String)
    (rid sku : String) (tr : TechnicalReportCreate)
    (hQ : 0 < Q) (hQS : Q ≤ S) :
    (((create_order noFail upload none (singleItemDB sku price S)
        (singleLineReq rid tr Q) userId).db.orderItemsOf 1).map OrderItem.unit_price =
      [price]) ∧
    ((create_order noFail upload none (singleItemDB sku price S)
        (singleLineReq rid tr Q) userId).db.total_amount 1 = price * Q) ∧
    (((update_item_price (create_order noFail upload none (singleItemDB sku price S)
        (singleLineReq rid tr Q) userId).db 1 p2).orderItemsOf 1).map OrderItem.unit_price =
      [price]) ∧
    ((update_item_price (create_order noFail upload none (singleItemDB sku price S)
        (singleLineReq rid tr Q) userId).db 1 p2).total_amount 1 = price * Q) ∧
    (∀ (db : DB) (id : Nat) (p : Int), (update_item_price db id p).order_items = db.order_items) := by
  have hq1 : ¬(Q ≤ 0) := by omega
  have hq2 : ¬(S < Q) := by omega
  have h3 : validate_items (singleItemDB sku price S) (singleLineReq rid tr Q).items =
      .ok [{ item_id := 1, quantity := Q, unit_price := price }] := by
    simp [validate_items, singleLineReq, singleItemDB, DB.getItem, hq1, hq2]
  have hmain := create_order_noFail_success upload (singleItemDB sku price S)
    (singleLineReq rid tr Q) userId [{ item_id := 1, quantity := Q, unit_price := price }]
    rfl rfl h3
  refine ⟨?_, ?_, ?_, ?_, ?_⟩
  · rw [hmain]
    rfl
  · rw [hmain]
    show price * Q + 0 = price * Q
    exact add_zero _
  · rw [hmain]
    rfl
  · rw [hmain]
    show price * Q + 0 = price * Q
    exact add_zero _
  · intro db id p
    rfl

/-- Witness for C8: created at price 5, quantity 10; after repricing the
item to 9999 the line item still carries 5 and the total is still 50. -/
theorem total_amount_price_snapshot_witness :
    ((0:Int) < 10 ∧ (10:Int) ≤ 100) ∧
    (((create_order noFail uploadUnavailable none (singleItemDB "SKU-8" 5 100)
        (singleLineReq "req-8" trPayload 10) 1).db.orderItemsOf 1).map OrderItem.unit_price =
      [5]) ∧
    ((create_order noFail uploadUnavailable none (singleItemDB "SKU-8" 5 100)
        (singleLineReq "req-8" trPayload 10) 1).db.total_amount 1 = 5 * 10) ∧
    (((update_item_price (create_order noFail uploadUnavailable none (singleItemDB "SKU-8" 5 100)
        (singleLineReq "req-8" trPayload 10) 1).db 1 9999).orderItemsOf 1).map
        OrderItem.unit_price = [5]) ∧
    ((update_item_price (create_order noFail uploadUnavailable none (singleItemDB "SKU-8" 5 100)
        (singleLineReq "req-8" trPayload 10) 1).db 1 9999).total_amount 1 = 5 * 10) := by
  have h := total_amount_price_snapshot 100 10 5 9999 1 uploadUnavailable "req-8" "SKU-8"
    trPayload (by decide) (by decide)
  exact ⟨⟨by decide, by decide⟩, h.1, h.2.1, h.2.2.1, h.2.2.2.1⟩

/-- **C9**: for every valid order-creation request that supplies an image
payload, if the upload collaborator fails (`S3ServiceError`), the order is
still created successfully (HTTP 201) with `image_url` unset — the upload
failure never surfaces as a request failure. -/
theorem upload_failure_swallowed
    (upload : String → String → Except String String)
    (db : DB) (order : OrderCreate) (userId : Nat) (ds : List OrderItemData)
    (img e : String)
    (h1 : db.getOrderByRequestId order.request_id = none)
    (h2 : order.items.isEmpty = false)
    (h3 : validate_items db order.items = .ok ds)
    (h4 : order.image_base64 = some img)
    (h5 : upload img order.request_id = .error e) :
    ∃ o : Order,
      (create_order noFail upload none db order userId).result = .ok (o, false) ∧
      (create_order noFail upload none db order userId).httpStatus = 201 ∧
      o.image_url = none := by
  refine ⟨mkOrder upload db order, ?_, ?_, ?_⟩
  · rw [create_order_noFail_success upload db order userId ds h1 h2 h3]
  · rw [create_order_noFail_success upload db order userId ds h1 h2 h3]
    rfl
  · simp [mkOrder, computed_image_url, h4, h5]

/-- The C9 witness request: a valid one-line order that carries an image
payload. -/
def reqWithImage : OrderCreate :=
  { request_id := "req-9", technical_report := trPayload,
    items := [{ item_id := 1, quantity := 10 }], image_base64 := some "imgdata" }

/-- Witness for C9: the always-failing upload collaborator still yields a
201 creation whose order has no `image_url`. -/
theorem upload_failure_swallowed_witness :
    ((singleItemDB "SKU-9" 5 100).getOrderByRequestId "req-9" = none ∧
     reqWithImage.items.isEmpty = false ∧
     validate_items (singleItemDB "SKU-9" 5 100) reqWithImage.items =
       .ok [{ item_id := 1, quantity := 10, unit_price := 5 }] ∧
     reqWithImage.image_base64 = some "imgdata" ∧
     uploadUnavailable "imgdata" reqWithImage.request_id = .error "S3 unavailable") ∧
    ∃ o : Order,
      (create_order noFail uploadUnavailable none (singleItemDB "SKU-9" 5 100)
          reqWithImage 1).result = .ok (o, false) ∧
      (create_order noFail uploadUnavailable none (singleItemDB "SKU-9" 5 100)
          reqWithImage 1).httpStatus = 201 ∧
      o.image_url = none :=
  ⟨⟨rfl, rfl, rfl, rfl, rfl⟩,
   upload_failure_swallowed uploadUnavailable (singleItemDB "SKU-9" 5 100) reqWithImage 1
     [{ item_id := 1, quantity := 10, unit_price := 5 }] "imgdata" "S3 unavailable"
     rfl rfl rfl rfl rfl⟩

theorem getItem_insertReport (db : DB) (r : TechnicalReport) (id : Nat) :
    (db.insertReport r).getItem id = db.getItem id := rfl

theorem getItem_insertOrder (db : DB) (o : Order) (id : Nat) :
    (db.insertOrder o).getItem id = db.getItem id := rfl

theorem getItem_insertOrderItem (db : DB) (l : OrderItem) (id : Nat) :
    (db.insertOrderItem l).getItem id = db.getItem id := rfl

theorem validate_items_item_exists (db : DB) :
    ∀ (l : List OrderItemCreate) (ds : List OrderItemData),
      validate_items db l = .ok ds → ∀ d ∈ ds, (db.getItem d.item_id).isSome := by
  intro l
  induction l with
  | nil =>
    intro ds h d hd
    cases h
    simp at hd
  | cons oi rest ih =>
    intro ds h d hd
    rw [validate_items] at h
    split at h
    · cases h
    · split at h
      · cases h
      · next it heq =>
          split at h
          · cases h
          · split at h
            · cases h
            · next rest' hv =>
                cases h
                rcases List.mem_cons.mp hd with rfl | hmem
                · simp [heq]
                · exact ih rest' hv d hmem

/-- **C6** (counterexample to the claim as stated): a valid one-line
creation whose final `db.commit()` (the second commit of the request)
fails is answered with the generic 500 storage error, yet nothing is
undone: by then the per-line internal commit of `DBManager.update` has
already published the TechnicalReport, the Order, the OrderItem and the
stock decrement (100 → 90), so the claimed "rolls back" does not happen —
the creation is fully persisted while the caller sees the failure. -/
theorem create_order_rollback_claim_counterexample :
    ((create_order (fun n => n == 2) uploadUnavailable none (singleItemDB "SKU-6" 5 100)
        (singleLineReq "req-6" trPayload 10) 1).result = .error .database_error) ∧
    ((create_order (fun n => n == 2) uploadUnavailable none (singleItemDB "SKU-6" 5 100)
        (singleLineReq "req-6" trPayload 10) 1).httpStatus = 500) ∧
    ((create_order (fun n => n == 2) uploadUnavailable none (singleItemDB "SKU-6" 5 100)
        (singleLineReq "req-6" trPayload 10) 1).db.orders.length = 1) ∧
    ((create_order (fun n => n == 2) uploadUnavailable none (singleItemDB "SKU-6" 5 100)
        (singleLineReq "req-6" trPayload 10) 1).db.order_items.length = 1) ∧
    ((create_order (fun n => n == 2) uploadUnavailable none (singleItemDB "SKU-6" 5 100)
        (singleLineReq "req-6" trPayload 10) 1).db.reports.length = 1) ∧
    ((create_order (fun n => n == 2) uploadUnavailable none (singleItemDB "SKU-6" 5 100)
        (singleLineReq "req-6" trPayload 10) 1).db.itemStock 1 = some 90) :=
  ⟨rfl, rfl, rfl, rfl, rfl, rfl⟩

/-- **C6** (amended): when the flush of the new order row hits the unique
constraint on `request_id` because a concurrent caller committed first,
`create_order` rolls back, re-queries by `request_id` and answers with the
winner's order and the "already existed" signal (HTTP 200) — the
constraint violation is never surfaced as an error.  Any other persistence
failure is surfaced only as the generic storage error, a 500 with no
internal detail (for every fault oracle, the race-free validated creation
either succeeds or answers exactly that error); the session's uncommitted
writes are rolled back, so a failure at the first commit leaves the
committed store unchanged — but writes already published by the per-line
internal commits of `DBManager.update` survive a later failure (the C1
bug, exhibited by the counterexample above). -/
theorem race_recovered_storage_error_amended
    (upload : String → String → Except String String)
    (db : DB) (order : OrderCreate) (userId : Nat) (ds : List OrderItemData) (w : Order)
    (h1 : db.getOrderByRequestId order.request_id = none)
    (h2 : order.items.isEmpty = false)
    (h3 : validate_items db order.items = .ok ds)
    (h4 : w.request_id = order.request_id) :
    create_order noFail upload (some w) db order userId =
      ⟨db.insertOrder w, .ok (w, true)⟩ ∧
    (create_order noFail upload (some w) db order userId).httpStatus = 200 ∧
    (∀ failOn : Nat → Bool,
      (create_order failOn upload none db order userId).result =
        .ok (mkOrder upload db order, false) ∨
      (create_order failOn upload none db order userId).result = .error .database_error) ∧
    create_order (fun n => n == 1) upload none db order userId =
      ⟨db, .error .database_error⟩ ∧
    (ApiError.database_error).httpStatus = 500 := by
  have hfind : (db.insertOrder w).getOrderByRequestId order.request_id = some w := by
    unfold DB.insertOrder DB.getOrderByRequestId
    exact List.find?_cons_of_pos _ (by simp [h4])
  have hrace : create_order noFail upload (some w) db order userId =
      ⟨db.insertOrder w, .ok (w, true)⟩ := by
    unfold create_order
    rw [h1, h2, h3]
    simp only []
    rw [hfind]
    rfl
  refine ⟨hrace, by rw [hrace]; rfl, ?_, ?_, rfl⟩
  · intro failOn
    unfold create_order
    rw [h1, h2, h3]
    simp only []
    rw [h1]
    show (match create_items_loop failOn db.next_order_id
        { committed := db,
          pending := (db.insertReport (mkReport db order userId)).insertOrder
            (mkOrder upload db order),
          commitCount := 0 } ds with
      | Except.error dbc =>
        ({ db := dbc, result := Except.error ApiError.database_error } : CreateResult)
      | Except.ok t =>
        match Txn.tryCommit failOn t with
        | Except.error dbc => { db := dbc, result := Except.error ApiError.database_error }
        | Except.ok t2 =>
          { db := t2.committed,
            result := Except.ok (mkOrder upload db order, false) }).result =
        Except.ok (mkOrder upload db order, false) ∨
      (match create_items_loop failOn db.next_order_id
        { committed := db,
          pending := (db.insertReport (mkReport db order userId)).insertOrder
            (mkOrder upload db order),
          commitCount := 0 } ds with
      | Except.error dbc =>
        ({ db := dbc, result := Except.error ApiError.database_error } : CreateResult)
      | Except.ok t =>
        match Txn.tryCommit failOn t with
        | Except.error dbc => { db := dbc, result := Except.error ApiError.database_error }
        | Except.ok t2 =>
          { db := t2.committed,
            result := Except.ok (mkOrder upload db order, false) }).result =
        Except.error ApiError.database_error
    split
    · exact Or.inr rfl
    · split
      · exact Or.inr rfl
      · exact Or.inl rfl
  rcases hds : ds with _ | ⟨d, rest⟩
  · unfold create_order
    rw [h1, h2, h3, hds]
    simp only []
    rw [h1]
    rfl
  · have hmem : d ∈ ds := by rw [hds]; exact List.mem_cons_self d rest
    have hsome := validate_items_item_exists db order.items ds h3 d hmem
    rcases Option.isSome_iff_exists.mp hsome with ⟨it, hit⟩
    unfold create_order
    rw [h1, h2, h3, hds]
    simp only []
    rw [h1]
    rw [create_items_loop]
    simp only [item_manager_update_stock, Txn.write, getItem_insertOrderItem,
      getItem_insertOrder, getItem_insertReport, hit]
    rfl

/-- The concurrent winner's order row used in the C6 witness. -/
def winnerOrder : Order :=
  { id := 99, request_id := "req-6", technical_report_id := 50, status := .pending,
    image_url := none }

/-- Witness for the amended C6: the concurrent winner is returned with
HTTP 200 after the unique-constraint hit; the only-generic-error
disjunction instantiated at a second-commit failure; and a first-commit
failure surfaces the generic storage error with the store untouched. -/
theorem race_recovered_storage_error_amended_witness :
    ((singleItemDB "SKU-6" 5 100).getOrderByRequestId "req-6" = none ∧
     (singleLineReq "req-6" trPayload 10).items.isEmpty = false ∧
     validate_items (singleItemDB "SKU-6" 5 100) (singleLineReq "req-6" trPayload 10).items =
       .ok [{ item_id := 1, quantity := 10, unit_price := 5 }] ∧
     winnerOrder.request_id = (singleLineReq "req-6" trPayload 10).request_id) ∧
    (create_order noFail uploadUnavailable (some winnerOrder) (singleItemDB "SKU-6" 5 100)
        (singleLineReq "req-6" trPayload 10) 1 =
      ⟨(singleItemDB "SKU-6" 5 100).insertOrder winnerOrder, .ok (winnerOrder, true)⟩) ∧
    ((create_order (fun n => n == 2) uploadUnavailable none (singleItemDB "SKU-6" 5 100)
        (singleLineReq "req-6" trPayload 10) 1).result =
      .ok (mkOrder uploadUnavailable (singleItemDB "SKU-6" 5 100)
        (singleLineReq "req-6" trPayload 10), false) ∨
     (create_order (fun n => n == 2) uploadUnavailable none (singleItemDB "SKU-6" 5 100)
        (singleLineReq "req-6" trPayload 10) 1).result = .error .database_error) ∧
    (create_order (fun n => n == 1) uploadUnavailable none (singleItemDB "SKU-6" 5 100)
        (singleLineReq "req-6" trPayload 10) 1 =
      ⟨singleItemDB "SKU-6" 5 100, .error .database_error⟩) := by
  have h := race_recovered_storage_error_amended uploadUnavailable (singleItemDB "SKU-6" 5 100)
    (singleLineReq "req-6" trPayload 10) 1 [{ item_id := 1, quantity := 10, unit_price := 5 }]
    winnerOrder rfl rfl rfl rfl
  exact ⟨⟨rfl, rfl, rfl, rfl⟩, h.1, h.2.2.1 (fun n => n == 2), h.2.2.2.1⟩

/-! ### Code bugs: the per-line internal commits defeat atomicity and the
stock invariant -/

/-- A store with three items, each of stock 10. -/
def dbThreeItems : DB :=
  { items := [{ id := 1, sku := "A", price := 1, stock := 10 },
              { id := 2, sku := "B", price := 1, stock := 10 },
              { id := 3, sku := "C", price := 1, stock := 10 }],
    orders := [], order_items := [], reports := [],
    next_order_id := 1, next_report_id := 1, next_order_item_id := 1 }

/-- A three-line order request, quantity 2 per line. -/
def reqThreeLines : OrderCreate :=
  { request_id := "req-1", technical_report := trPayload,
    items := [{ item_id := 1, quantity := 2 }, { item_id := 2, quantity := 2 },
              { item_id := 3, quantity := 2 }],
    image_base64 := none }

/-- **C1** (refuting the claim on the code as written): `DBManager.update`
commits on every call (`connection.py` line 198), so each line item's stock
decrement inside `create_order`'s STEP 3 publishes everything pending.
When the persistence write for the third of three line items fails, the
`db.rollback()` of the `except SQLAlchemyError` handler can only undo the
uncommitted tail: the TechnicalReport, the Order, the first two OrderItems
and the first two stock decrements (10 → 8) remain committed, while the
claim demands that nothing from the attempt persists. -/
theorem create_order_midloop_failure_partial_persist :
    ((create_order (fun n => n == 3) uploadUnavailable none dbThreeItems reqThreeLines 1).result
      = .error .database_error) ∧
    ((create_order (fun n => n == 3) uploadUnavailable none dbThreeItems reqThreeLines
        1).db.reports.length = 1) ∧
    ((create_order (fun n => n == 3) uploadUnavailable none dbThreeItems reqThreeLines
        1).db.orders.length = 1) ∧
    ((create_order (fun n => n == 3) uploadUnavailable none dbThreeItems reqThreeLines
        1).db.order_items.length = 2) ∧
    ((create_order (fun n => n == 3) uploadUnavailable none dbThreeItems reqThreeLines
        1).db.itemStock 1 = some 8) ∧
    ((create_order (fun n => n == 3) uploadUnavailable none dbThreeItems reqThreeLines
        1).db.itemStock 2 = some 8) ∧
    ((create_order (fun n => n == 3) uploadUnavailable none dbThreeItems reqThreeLines
        1).db.itemStock 3 = some 10) :=
  ⟨rfl, rfl, rfl, rfl, rfl, rfl, rfl⟩

/-- A store with one item of stock 5 (price 7). -/
def dbDupItem : DB := singleItemDB "SKU-D" 7 5

/-- An order request naming the same item twice, quantity 3 per line:
each line passes validation against the stored stock of 5. -/
def reqDupLines : OrderCreate :=
  { request_id := "req-dup", technical_report := trPayload,
    items := [{ item_id := 1, quantity := 3 }, { item_id := 1, quantity := 3 }],
    image_base64 := none }

/-- **C3** (refuting the never-negative invariant on the code as written):
the validation loop checks every line against the stored, not-yet-
decremented stock (5 ≥ 3 twice), then STEP 3 decrements per line against
the freshly committed value (5 → 2 → −1): an accepted order drives the
stock of item 1 to −1, with no `InsufficientStock` raised. -/
theorem duplicate_lines_drive_stock_negative :
    (validate_items dbDupItem reqDupLines.items =
      .ok [{ item_id := 1, quantity := 3, unit_price := 7 },
           { item_id := 1, quantity := 3, unit_price := 7 }]) ∧
    ((create_order noFail uploadUnavailable none dbDupItem reqDupLines 1).result =
      .ok ({ id := 1, request_id := "req-dup", technical_report_id := 1, status := .pending,
             image_url := none }, false)) ∧
    ((create_order noFail uploadUnavailable none dbDupItem reqDupLines 1).db.itemStock 1 =
      some (-1)) :=
  ⟨rfl, rfl, rfl⟩

/-- A store holding one pending order of quantity 10 over item 1, created
when the stock was 100 (so the stored stock is 90). -/
def dbPendingOrder : DB :=
  { items := [{ id := 1, sku := "SKU-7", price := 5, stock := 90 }],
    orders := [{ id := 1, request_id := "req-7", technical_report_id := 1,
                 status := .pending, image_url := none }],
    order_items := [{ id := 1, order_id := 1, item_id := 1, quantity := 10, unit_price := 5 }],
    reports := [{ id := 1, title := "t", description := "d", diagnosis := none,
                  recommendations := none, created_by_id := 1 }],
    next_order_id := 2, next_report_id := 2, next_order_item_id := 2 }

/-- **C7** (refuting the claim on the code as written): during a
cancellation, each stock restoration goes through `DBManager.update`,
which commits immediately; when the subsequent status-update commit fails,
the handler's `db.rollback()` cannot undo the already-committed
restoration — the request fails with the storage error, the stock is back
at 100, but the order is still `pending`, while the claim demands that
status and stock revert together. -/
theorem cancel_status_commit_failure_not_atomic :
    ((update_order_status (fun n => n == 2) dbPendingOrder 1 .cancelled).result =
      .error .database_error) ∧
    ((update_order_status (fun n => n == 2) dbPendingOrder 1 .cancelled).db.itemStock 1 =
      some 100) ∧
    (((update_order_status (fun n => n == 2) dbPendingOrder 1 .cancelled).db.getOrder 1).map
        Order.status = some .pending) :=
  ⟨rfl, rfl, rfl⟩

end MaintenanceService
